import Mathlib

/-!
Verification of the offline processor core of renewedvision/breakpad.

The file shallowly embeds the functions of src/processor/stackwalk_common.cc
and src/processor/dump_context.cc that the checked claims speak about, and
models, from the specification's words, the minidump header check and the
RISC-V caller-recovery walk whose implementations are not among the staged
sources (only stackwalker_riscv.h's declarations are). Machine integers are
modelled as Nat; bitmask tests use Nat.land, mirroring the C masks.
-/

namespace Breakpad

/-- Separator character for machine readable output
(stackwalk_common.cc line 63, kOutputSeparator). -/
def kOutputSeparator : Char := '|'

/-- One erase loop of StripSeparator (stackwalk_common.cc lines 123-130):
every occurrence of the character c is removed, all other characters are
kept in order. -/
def removeChar (c : Char) : List Char → List Char
  | [] => []
  | x :: xs => if x = c then removeChar c xs else x :: removeChar c xs

/-- StripSeparator (stackwalk_common.cc lines 119-132): a copy of the input
with all occurrences of kOutputSeparator removed, then all newlines
removed. -/
def stripSeparator (s : List Char) : List Char :=
  removeChar '\n' (removeChar kOutputSeparator s)

/-- The fields of a CodeModule that PrintModule and ContainsModule read
(google_breakpad/processor/code_module.h accessors used by
stackwalk_common.cc). -/
structure CodeModule where
  code_file : String
  version : String
  debug_file : String
  debug_identifier : String
  base_address : Nat
  size : Nat
deriving DecidableEq

/-- ContainsModule (stackwalk_common.cc lines 1141-1154): whether the vector
holds a module with the same debug_file and debug_identifier as module m. -/
def containsModule (modules : List CodeModule) (m : CodeModule) : Bool :=
  modules.any fun x =>
    decide (m.debug_file = x.debug_file) && decide (m.debug_identifier = x.debug_identifier)

/-- The symbol warning a module line of the report can carry. -/
inductive SymbolWarning where
  | noWarning
  | noSymbols
  | corruptSymbols
deriving DecidableEq

/-- The warning selection of PrintModule (stackwalk_common.cc lines
1164-1173): "No symbols" when the module is listed in
modules_without_symbols, otherwise "Corrupt symbols" when it is listed in
modules_with_corrupt_symbols, otherwise none. -/
def moduleWarning (m : CodeModule)
    (modulesWithoutSymbols modulesWithCorruptSymbols : List CodeModule) : SymbolWarning :=
  if containsModule modulesWithoutSymbols m then SymbolWarning.noSymbols
  else if containsModule modulesWithCorruptSymbols m then SymbolWarning.corruptSymbols
  else SymbolWarning.noWarning

/-- The order in which PrintProcessState (stackwalk_common.cc lines
1342-1370) prints per-thread call stacks: the requesting thread first when
it is not -1, then, unless output_requesting_thread_only suppresses the
loop, every thread index except the requesting one in increasing order. -/
def printedThreadsHuman (requestingThread : Int) (threadCount : Nat)
    (outputRequestingThreadOnly : Bool) : List Int :=
  (if requestingThread ≠ -1 then [requestingThread] else []) ++
  (if outputRequestingThreadOnly then []
   else ((List.range threadCount).map Int.ofNat).filter fun i => decide (i ≠ requestingThread))

/-- The order in which PrintProcessStateMachineReadable (stackwalk_common.cc
lines 1432-1447) prints per-thread call stacks: the requesting thread first
when it is not -1, then every other thread index in increasing order. -/
def printedThreadsMachine (requestingThread : Int) (threadCount : Nat) : List Int :=
  (if requestingThread ≠ -1 then [requestingThread] else []) ++
  ((List.range threadCount).map Int.ofNat).filter fun i => decide (i ≠ requestingThread)

/-- Frame trust levels, modelled from the StackFrame::FrameTrust enum of
google_breakpad/processor/stack_frame.h (not among the staged sources;
stackwalk_common.cc compares against FRAME_TRUST_INLINE at line 344). -/
inductive FrameTrust where
  | none
  | scan
  | cfiScan
  | fp
  | cfi
  | prewalked
  | context
  | inlined
deriving DecidableEq

/-- Mask standing for the CONTEXT_VALID_ALL constants of
google_breakpad/processor/stack_frame_cpu.h. That header is not among the
staged sources; the per-register validity masks below are modelled as
distinct bits in table order and CONTEXT_VALID_ALL as the mask of all bits,
the shape the guards of PrintStack rely on. -/
def contextValidAll : Nat := 0xffffffff

/-- Register table of the x86 branch of PrintStack (stackwalk_common.cc
lines 350-377): each printed register name with the validity mask guarding
it; eax, ecx, edx and efl are guarded by CONTEXT_VALID_ALL in the source. -/
def regTableX86 : List (String × Nat) :=
  [("eip", 1), ("esp", 2), ("ebp", 4), ("ebx", 8), ("esi", 16), ("edi", 32),
   ("eax", contextValidAll), ("ecx", contextValidAll), ("edx", contextValidAll),
   ("efl", contextValidAll)]

/-- Register table of the ppc branch of PrintStack (stackwalk_common.cc
lines 378-389). -/
def regTablePPC : List (String × Nat) := [("srr0", 1), ("r1", 2)]

/-- Register table of the amd64 branch of PrintStack (stackwalk_common.cc
lines 390-435). -/
def regTableAMD64 : List (String × Nat) :=
  [("rax", 1), ("rdx", 2), ("rcx", 4), ("rbx", 8), ("rsi", 16), ("rdi", 32),
   ("rbp", 64), ("rsp", 128), ("r8", 256), ("r9", 512), ("r10", 1024),
   ("r11", 2048), ("r12", 4096), ("r13", 8192), ("r14", 16384),
   ("r15", 32768), ("rip", 65536)]

/-- Register table of the sparc branch of PrintStack (stackwalk_common.cc
lines 436-452). -/
def regTableSPARC : List (String × Nat) := [("sp", 1), ("fp", 2), ("pc", 4)]

/-- Register table of the arm branch of PrintStack (stackwalk_common.cc
lines 453-496), in the order of the source's data array. -/
def regTableARM : List (String × Nat) :=
  [("r0", 1), ("r1", 2), ("r2", 4), ("r3", 8), ("r4", 16), ("r5", 32),
   ("r6", 64), ("r7", 128), ("r8", 256), ("r9", 512), ("r10", 1024),
   ("r12", 2048), ("fp", 4096), ("sp", 8192), ("lr", 16384), ("pc", 32768)]

/-- Register table of the arm64 branch of PrintStack (stackwalk_common.cc
lines 498-576). -/
def regTableARM64 : List (String × Nat) :=
  [("x0", 1), ("x1", 2), ("x2", 4), ("x3", 8), ("x4", 16), ("x5", 32),
   ("x6", 64), ("x7", 128), ("x8", 256), ("x9", 512), ("x10", 1024),
   ("x11", 2048), ("x12", 4096), ("x13", 8192), ("x14", 16384),
   ("x15", 32768), ("x16", 65536), ("x17", 131072), ("x18", 262144),
   ("x19", 524288), ("x20", 1048576), ("x21", 2097152), ("x22", 4194304),
   ("x23", 8388608), ("x24", 16777216), ("x25", 33554432),
   ("x26", 67108864), ("x27", 134217728), ("x28", 268435456),
   ("fp", 536870912), ("lr", 1073741824), ("sp", 2147483648),
   ("pc", 4294967296)]

/-- Register table of the mips / mips64 branch of PrintStack
(stackwalk_common.cc lines 578-634). -/
def regTableMIPS : List (String × Nat) :=
  [("gp", 1), ("sp", 2), ("fp", 4), ("ra", 8), ("pc", 16), ("s0", 32),
   ("s1", 64), ("s2", 128), ("s3", 256), ("s4", 512), ("s5", 1024),
   ("s6", 2048), ("s7", 4096)]

/-- Register table of the riscv branch of PrintStack (stackwalk_common.cc
lines 635-766). -/
def regTableRISCV : List (String × Nat) :=
  [("pc", 1), ("ra", 2), ("sp", 4), ("gp", 8), ("tp", 16), ("t0", 32),
   ("t1", 64), ("t2", 128), ("s0", 256), ("s1", 512), ("a0", 1024),
   ("a1", 2048), ("a2", 4096), ("a3", 8192), ("a4", 16384), ("a5", 32768),
   ("a6", 65536), ("a7", 131072), ("s2", 262144), ("s3", 524288),
   ("s4", 1048576), ("s5", 2097152), ("s6", 4194304), ("s7", 8388608),
   ("s8", 16777216), ("s9", 33554432), ("s10", 67108864),
   ("s11", 134217728), ("t3", 268435456), ("t4", 536870912),
   ("t5", 1073741824), ("t6", 2147483648)]

/-- Register table of the riscv64 branch of PrintStack (stackwalk_common.cc
lines 767-898): the same registers guarded by the same mask shape as the
riscv branch. -/
def regTableRISCV64 : List (String × Nat) := regTableRISCV

/-- The per-architecture register table PrintStack selects by the cpu
string (stackwalk_common.cc lines 346-899); an unrecognized cpu prints no
registers. -/
def regTable (cpu : String) : List (String × Nat) :=
  if cpu = "x86" then regTableX86
  else if cpu = "ppc" then regTablePPC
  else if cpu = "amd64" then regTableAMD64
  else if cpu = "sparc" then regTableSPARC
  else if cpu = "arm" then regTableARM
  else if cpu = "arm64" then regTableARM64
  else if cpu = "mips" ∨ cpu = "mips64" then regTableMIPS
  else if cpu = "riscv" then regTableRISCV
  else if cpu = "riscv64" then regTableRISCV64
  else []

/-- The register names the per-frame register section of PrintStack prints
(stackwalk_common.cc lines 343-900): nothing for a frame whose trust is
FRAME_TRUST_INLINE, and otherwise exactly the table registers whose validity
mask intersects the frame's context_validity. -/
def printedRegisters (cpu : String) (trust : FrameTrust) (contextValidity : Nat) :
    List String :=
  if trust = FrameTrust.inlined then []
  else ((regTable cpu).filter fun p => decide (Nat.land contextValidity p.2 ≠ 0)).map
    Prod.fst

/-- MD_CONTEXT_CPU_MASK of the minidump format. The format header
(google_breakpad/common/minidump_format.h) is not among the staged sources;
the MD_CONTEXT_* constants are modelled from the published minidump format:
every CPU-type constant clears the low flag byte, so it is preserved by the
mask, and the constants are pairwise distinct. -/
def MD_CONTEXT_CPU_MASK : Nat := 0xffffff00

/-- CPU-type constant for x86 contexts (modelled, see MD_CONTEXT_CPU_MASK). -/
def MD_CONTEXT_X86 : Nat := 0x00010000

/-- CPU-type constant for mips contexts (modelled). -/
def MD_CONTEXT_MIPS : Nat := 0x00040000

/-- CPU-type constant for mips64 contexts (modelled). -/
def MD_CONTEXT_MIPS64 : Nat := 0x00080000

/-- CPU-type constant for amd64 contexts (modelled). -/
def MD_CONTEXT_AMD64 : Nat := 0x00100000

/-- CPU-type constant for arm64 contexts (modelled). -/
def MD_CONTEXT_ARM64 : Nat := 0x00400000

/-- CPU-type constant for ppc64 contexts (modelled). -/
def MD_CONTEXT_PPC64 : Nat := 0x01000000

/-- CPU-type constant for riscv64 contexts (modelled). -/
def MD_CONTEXT_RISCV64 : Nat := 0x04000000

/-- CPU-type constant for riscv contexts (modelled). -/
def MD_CONTEXT_RISCV : Nat := 0x08000000

/-- CPU-type constant for sparc contexts (modelled). -/
def MD_CONTEXT_SPARC : Nat := 0x10000000

/-- CPU-type constant for ppc contexts (modelled). -/
def MD_CONTEXT_PPC : Nat := 0x20000000

/-- CPU-type constant for arm contexts (modelled). -/
def MD_CONTEXT_ARM : Nat := 0x40000000

/-- The fields of MDRawContextX86 read by dump_context.cc's accessors. -/
structure MDRawContextX86 where
  eip : Nat
  esp : Nat

/-- The fields of MDRawContextPPC read by dump_context.cc's accessors. -/
structure MDRawContextPPC where
  srr0 : Nat
  gpr : Fin 32 → Nat

/-- The fields of MDRawContextPPC64 read by dump_context.cc's accessors. -/
structure MDRawContextPPC64 where
  srr0 : Nat
  gpr : Fin 32 → Nat

/-- The fields of MDRawContextAMD64 read by dump_context.cc's accessors. -/
structure MDRawContextAMD64 where
  rip : Nat
  rsp : Nat

/-- The fields of MDRawContextSPARC read by dump_context.cc's accessors. -/
structure MDRawContextSPARC where
  pc : Nat
  g_r : Fin 32 → Nat

/-- The fields of MDRawContextARM read by dump_context.cc's accessors. -/
structure MDRawContextARM where
  iregs : Fin 16 → Nat

/-- The fields of MDRawContextARM64 read by dump_context.cc's accessors. -/
structure MDRawContextARM64 where
  iregs : Fin 33 → Nat

/-- The fields of MDRawContextMIPS read by dump_context.cc's accessors. -/
structure MDRawContextMIPS where
  epc : Nat
  iregs : Fin 32 → Nat

/-- Index of the program counter in MDRawContextARM.iregs
(MD_CONTEXT_ARM_REG_PC, modelled from the format header). -/
def MD_CONTEXT_ARM_REG_PC : Fin 16 := 15

/-- Index of the stack pointer in MDRawContextARM.iregs (R13). -/
def MD_CONTEXT_ARM_REG_SP : Fin 16 := 13

/-- Index of the program counter in MDRawContextARM64.iregs. -/
def MD_CONTEXT_ARM64_REG_PC : Fin 33 := 32

/-- Index of the stack pointer in MDRawContextARM64.iregs (X31). -/
def MD_CONTEXT_ARM64_REG_SP : Fin 33 := 31

/-- Index of the stack pointer in MDRawContextPPC.gpr (R1). -/
def MD_CONTEXT_PPC_REG_SP : Fin 32 := 1

/-- Index of the stack pointer in MDRawContextPPC64.gpr (R1). -/
def MD_CONTEXT_PPC64_REG_SP : Fin 32 := 1

/-- Index of the stack pointer in MDRawContextSPARC.g_r (O6). -/
def MD_CONTEXT_SPARC_REG_SP : Fin 32 := 14

/-- Index of the stack pointer in MDRawContextMIPS.iregs (R29). -/
def MD_CONTEXT_MIPS_REG_SP : Fin 32 := 29

/-- The context union of DumpContext (dump_context.h's MDRawContextBase
union): at most one architecture's raw context is stored; base stands for
the NULL/base pointer state. -/
inductive RawContext where
  | base
  | x86 (c : MDRawContextX86)
  | ppc (c : MDRawContextPPC)
  | ppc64 (c : MDRawContextPPC64)
  | amd64 (c : MDRawContextAMD64)
  | sparc (c : MDRawContextSPARC)
  | arm (c : MDRawContextARM)
  | arm64 (c : MDRawContextARM64)
  | mips (c : MDRawContextMIPS)

/-- The x86 member of the context union, when that is what is stored. -/
def RawContext.asX86 : RawContext → Option MDRawContextX86
  | RawContext.x86 c => some c
  | _ => none

/-- The ppc member of the context union, when that is what is stored. -/
def RawContext.asPPC : RawContext → Option MDRawContextPPC
  | RawContext.ppc c => some c
  | _ => none

/-- The ppc64 member of the context union, when that is what is stored. -/
def RawContext.asPPC64 : RawContext → Option MDRawContextPPC64
  | RawContext.ppc64 c => some c
  | _ => none

/-- The amd64 member of the context union, when that is what is stored. -/
def RawContext.asAMD64 : RawContext → Option MDRawContextAMD64
  | RawContext.amd64 c => some c
  | _ => none

/-- The sparc member of the context union, when that is what is stored. -/
def RawContext.asSPARC : RawContext → Option MDRawContextSPARC
  | RawContext.sparc c => some c
  | _ => none

/-- The arm member of the context union, when that is what is stored. -/
def RawContext.asARM : RawContext → Option MDRawContextARM
  | RawContext.arm c => some c
  | _ => none

/-- The arm64 member of the context union, when that is what is stored. -/
def RawContext.asARM64 : RawContext → Option MDRawContextARM64
  | RawContext.arm64 c => some c
  | _ => none

/-- The mips member of the context union, when that is what is stored. -/
def RawContext.asMIPS : RawContext → Option MDRawContextMIPS
  | RawContext.mips c => some c
  | _ => none

/-- The state of a DumpContext that dump_context.cc reads: the validity
flag, the raw context flags and the stored context union member. -/
structure DumpContext where
  valid_ : Bool
  context_flags_ : Nat
  context_ : RawContext

/-- DumpContext::GetContextCPU (dump_context.cc lines 214-222): 0 for an
invalid context, otherwise context_flags masked with MD_CONTEXT_CPU_MASK. -/
def GetContextCPU (d : DumpContext) : Nat :=
  if d.valid_ then Nat.land d.context_flags_ MD_CONTEXT_CPU_MASK else 0

/-- DumpContext::GetContextX86 (dump_context.cc lines 228-235). -/
def GetContextX86 (d : DumpContext) : Option MDRawContextX86 :=
  if GetContextCPU d ≠ MD_CONTEXT_X86 then none else d.context_.asX86

/-- DumpContext::GetContextPPC (dump_context.cc lines 237-244). -/
def GetContextPPC (d : DumpContext) : Option MDRawContextPPC :=
  if GetContextCPU d ≠ MD_CONTEXT_PPC then none else d.context_.asPPC

/-- DumpContext::GetContextPPC64 (dump_context.cc lines 246-253). -/
def GetContextPPC64 (d : DumpContext) : Option MDRawContextPPC64 :=
  if GetContextCPU d ≠ MD_CONTEXT_PPC64 then none else d.context_.asPPC64

/-- DumpContext::GetContextAMD64 (dump_context.cc lines 255-262). -/
def GetContextAMD64 (d : DumpContext) : Option MDRawContextAMD64 :=
  if GetContextCPU d ≠ MD_CONTEXT_AMD64 then none else d.context_.asAMD64

/-- DumpContext::GetContextSPARC (dump_context.cc lines 264-271). -/
def GetContextSPARC (d : DumpContext) : Option MDRawContextSPARC :=
  if GetContextCPU d ≠ MD_CONTEXT_SPARC then none else d.context_.asSPARC

/-- DumpContext::GetContextARM (dump_context.cc lines 273-280). -/
def GetContextARM (d : DumpContext) : Option MDRawContextARM :=
  if GetContextCPU d ≠ MD_CONTEXT_ARM then none else d.context_.asARM

/-- DumpContext::GetContextARM64 (dump_context.cc lines 282-289). -/
def GetContextARM64 (d : DumpContext) : Option MDRawContextARM64 :=
  if GetContextCPU d ≠ MD_CONTEXT_ARM64 then none else d.context_.asARM64

/-- DumpContext::GetContextMIPS (dump_context.cc lines 291-299): answers for
both the mips and the mips64 CPU tags. -/
def GetContextMIPS (d : DumpContext) : Option MDRawContextMIPS :=
  if GetContextCPU d ≠ MD_CONTEXT_MIPS ∧ GetContextCPU d ≠ MD_CONTEXT_MIPS64 then none
  else d.context_.asMIPS

/-- DumpContext::GetInstructionPointer (dump_context.cc lines 301-343):
none models the false return, some models success with the written value. -/
def GetInstructionPointer (d : DumpContext) : Option Nat :=
  if !d.valid_ then none
  else if GetContextCPU d = MD_CONTEXT_AMD64 then
    (GetContextAMD64 d).map fun c => c.rip
  else if GetContextCPU d = MD_CONTEXT_ARM then
    (GetContextARM d).map fun c => c.iregs MD_CONTEXT_ARM_REG_PC
  else if GetContextCPU d = MD_CONTEXT_ARM64 then
    (GetContextARM64 d).map fun c => c.iregs MD_CONTEXT_ARM64_REG_PC
  else if GetContextCPU d = MD_CONTEXT_PPC then
    (GetContextPPC d).map fun c => c.srr0
  else if GetContextCPU d = MD_CONTEXT_PPC64 then
    (GetContextPPC64 d).map fun c => c.srr0
  else if GetContextCPU d = MD_CONTEXT_SPARC then
    (GetContextSPARC d).map fun c => c.pc
  else if GetContextCPU d = MD_CONTEXT_X86 then
    (GetContextX86 d).map fun c => c.eip
  else if GetContextCPU d = MD_CONTEXT_MIPS ∨ GetContextCPU d = MD_CONTEXT_MIPS64 then
    (GetContextMIPS d).map fun c => c.epc
  else none

/-- DumpContext::GetStackPointer (dump_context.cc lines 345-387). -/
def GetStackPointer (d : DumpContext) : Option Nat :=
  if !d.valid_ then none
  else if GetContextCPU d = MD_CONTEXT_AMD64 then
    (GetContextAMD64 d).map fun c => c.rsp
  else if GetContextCPU d = MD_CONTEXT_ARM then
    (GetContextARM d).map fun c => c.iregs MD_CONTEXT_ARM_REG_SP
  else if GetContextCPU d = MD_CONTEXT_ARM64 then
    (GetContextARM64 d).map fun c => c.iregs MD_CONTEXT_ARM64_REG_SP
  else if GetContextCPU d = MD_CONTEXT_PPC then
    (GetContextPPC d).map fun c => c.gpr MD_CONTEXT_PPC_REG_SP
  else if GetContextCPU d = MD_CONTEXT_PPC64 then
    (GetContextPPC64 d).map fun c => c.gpr MD_CONTEXT_PPC64_REG_SP
  else if GetContextCPU d = MD_CONTEXT_SPARC then
    (GetContextSPARC d).map fun c => c.g_r MD_CONTEXT_SPARC_REG_SP
  else if GetContextCPU d = MD_CONTEXT_X86 then
    (GetContextX86 d).map fun c => c.esp
  else if GetContextCPU d = MD_CONTEXT_MIPS ∨ GetContextCPU d = MD_CONTEXT_MIPS64 then
    (GetContextMIPS d).map fun c => c.iregs MD_CONTEXT_MIPS_REG_SP
  else none

/-- The outcome of the minidump reader's header check (spec sections 4.1
and 7). -/
inductive ParseStatus where
  | ok
  | badSignature
  | truncated
  | badStreamVersion
deriving DecidableEq

/-- The four signature bytes: the ASCII characters "MDMP" (spec section 6). -/
def mdmpSignature : List Nat := [0x4D, 0x44, 0x4D, 0x50]

/-- Little-endian u32 read at a byte offset of a byte list. -/
def readU32LE (bytes : List Nat) (off : Nat) : Nat :=
  bytes.getD off 0 + 256 * bytes.getD (off + 1) 0 +
  65536 * bytes.getD (off + 2) 0 + 16777216 * bytes.getD (off + 3) 0

/-- Modelled from the spec: the minidump reader's header check. The reader
implementation is not among the staged sources. Per spec sections 4.1, 6, 7
and 8: header() fails with BadSignature exactly when the first four bytes
are not "MDMP"; it fails with Truncated when the fixed 32-byte header
(signature, version, stream_count, directory_rva, checksum,
time_date_stamp, flags) does not fit in the file; and it fails with
BadStreamVersion when the low 16 bits of the version word are not 0xA793. -/
def parseHeader (m : List Nat) : ParseStatus :=
  if m.take 4 ≠ mdmpSignature then ParseStatus.badSignature
  else if m.length < 32 then ParseStatus.truncated
  else if readU32LE m 4 % 65536 ≠ 0xA793 then ParseStatus.badStreamVersion
  else ParseStatus.ok

/-- The RISC-V register state the caller-recovery walk reads and writes:
program counter, return address, stack pointer and frame pointer s0. The
remaining general-purpose registers of MDRawContextRISCV take no part in
the walk logic. Modelled from the spec (section 4.4: riscv SP = X2,
RA = X1, FP = X8/S0) because stackwalker_riscv.cc is not among the staged
sources. -/
structure RiscvContext where
  pc : Nat
  ra : Nat
  sp : Nat
  s0 : Nat
deriving DecidableEq

/-- A stack frame of the RISC-V walk: register state, how it was recovered,
and which registers are valid. -/
structure RiscvFrame where
  context : RiscvContext
  trust : FrameTrust
  context_validity : Nat
deriving DecidableEq

/-- Validity bit of the modelled pc register. -/
def RISCV_VALID_PC : Nat := 1

/-- Validity bit of the modelled ra register. -/
def RISCV_VALID_RA : Nat := 2

/-- Validity bit of the modelled sp register. -/
def RISCV_VALID_SP : Nat := 4

/-- Validity bit of the modelled s0 register. -/
def RISCV_VALID_S0 : Nat := 8

/-- Validity mask of all modelled RISC-V registers, the CONTEXT_VALID_ALL
of the walk's frame zero. -/
def riscvContextValidAll : Nat :=
  RISCV_VALID_PC + RISCV_VALID_RA + RISCV_VALID_SP + RISCV_VALID_S0

/-- Validity mask of a recovered caller frame: the walk recovers the
caller's pc and sp. -/
def riscvCallerValidity : Nat := RISCV_VALID_PC + RISCV_VALID_SP

/-- Modelled from the spec: StackwalkerRISCV::GetContextFrame (declared at
stackwalker_riscv.h lines 39-41, implementation not staged). Frame zero is
built directly from the initial context: all valid registers are copied and
the trust is Context. -/
def getContextFrame (ctx : RiscvContext) : RiscvFrame :=
  { context := ctx, trust := FrameTrust.context,
    context_validity := riscvContextValidAll }

/-- The three caller-recovery strategies of StackwalkerRISCV (declared at
stackwalker_riscv.h lines 48-59, implementations not staged): each yields a
candidate caller register state from the callee frame, or nothing. Their
inner workings (CFI rule evaluation, frame-pointer loads, stack scanning)
depend on symbol tables and stack memory and are parameters of the model. -/
structure CallerStrategies where
  byCFI : RiscvFrame → Option RiscvContext
  byFramePointer : RiscvFrame → Option RiscvContext
  byStackScan : RiscvFrame → Option RiscvContext

/-- Modelled from the spec (section 4.4): a candidate caller frame is
plausible when its pc is not zero, its sp lies strictly above the callee's
sp (the RISC-V stack grows downward) and its sp stays within the known
stack bounds. -/
def plausibleCaller (stackEnd calleeSp : Nat) (c : RiscvContext) : Bool :=
  decide (c.pc ≠ 0) && decide (calleeSp < c.sp) && decide (c.sp ≤ stackEnd)

/-- A strategy's outcome filtered by plausibility: an implausible or absent
candidate yields no frame; a plausible one yields a frame carrying the
strategy's trust level. -/
def acceptCaller (stackEnd calleeSp : Nat) (t : FrameTrust) :
    Option RiscvContext → Option RiscvFrame
  | Option.none => Option.none
  | Option.some c =>
    if plausibleCaller stackEnd calleeSp c then
      Option.some { context := c, trust := t, context_validity := riscvCallerValidity }
    else Option.none

/-- Modelled from the spec: StackwalkerRISCV::GetCallerFrame (declared at
stackwalker_riscv.h lines 42-43, implementation not staged). The strategies
are attempted in the fixed order CFI unwind, frame-pointer walk, stack
scan; the scan runs only when the caller permits it and the previous
strategies produced no plausible frame; the first plausible frame is the
returned frame. -/
def getCallerFrame (stackEnd : Nat) (strategies : CallerStrategies)
    (stackScanAllowed : Bool) (callee : RiscvFrame) : Option RiscvFrame :=
  match acceptCaller stackEnd callee.context.sp FrameTrust.cfi
      (strategies.byCFI callee) with
  | Option.some f => Option.some f
  | Option.none =>
    match acceptCaller stackEnd callee.context.sp FrameTrust.fp
        (strategies.byFramePointer callee) with
    | Option.some f => Option.some f
    | Option.none =>
      if stackScanAllowed then
        acceptCaller stackEnd callee.context.sp FrameTrust.scan
          (strategies.byStackScan callee)
      else Option.none

/-- Modelled from the spec: the walk loop of section 4.4. Starting from the
last appended frame, the recovered caller is appended until no strategy
yields a plausible frame or the per-walk frame budget is exhausted. -/
def walkCallers (stackEnd : Nat) (strategies : CallerStrategies)
    (stackScanAllowed : Bool) : Nat → RiscvFrame → List RiscvFrame
  | 0, _ => []
  | Nat.succ budget, last =>
    match getCallerFrame stackEnd strategies stackScanAllowed last with
    | Option.none => []
    | Option.some f => f :: walkCallers stackEnd strategies stackScanAllowed budget f

/-- Modelled from the spec: a whole walk. The call stack starts with the
context frame and continues with the recovered callers, innermost first. -/
def walkStack (stackEnd : Nat) (strategies : CallerStrategies)
    (stackScanAllowed : Bool) (budget : Nat) (ctx : RiscvContext) : List RiscvFrame :=
  getContextFrame ctx ::
    walkCallers stackEnd strategies stackScanAllowed budget (getContextFrame ctx)

theorem removeChar_eq_filter (c : Char) (l : List Char) :
    removeChar c l = l.filter fun x => decide (x ≠ c) := by
  induction l with
  | nil => rfl
  | cons x xs ih =>
    by_cases h : x = c <;> simp [removeChar, h, ih]

/-- C9: StripSeparator returns its input with every occurrence of the pipe
character and every occurrence of the newline character removed and no
other characters changed or reordered — it is exactly the order-preserving
filter dropping those two characters — and consequently its output never
contains a pipe or a newline, so neither does any field of the
machine-readable output that passes through it. -/
theorem stripSeparator_is_filter :
    ∀ s : List Char,
      stripSeparator s = s.filter (fun c => decide (c ≠ '|') && decide (c ≠ '\n'))
      ∧ '|' ∉ stripSeparator s
      ∧ '\n' ∉ stripSeparator s := by
  intro s
  have hs : stripSeparator s =
      s.filter fun c => decide (c ≠ '|') && decide (c ≠ '\n') := by
    show removeChar '\n' (removeChar kOutputSeparator s) = _
    rw [removeChar_eq_filter, removeChar_eq_filter, List.filter_filter]
    congr 1
    funext a
    simp [kOutputSeparator, Bool.and_comm]
  refine ⟨hs, ?_, ?_⟩ <;> rw [hs] <;> simp

/-- C6: parsing a minidump yields BadSignature exactly when its first four
bytes are not the ASCII characters "MDMP"; in particular no later header
check (truncation, stream version) is ever reported as BadSignature. -/
theorem parseHeader_badSignature_iff :
    ∀ m : List Nat, parseHeader m = ParseStatus.badSignature ↔ m.take 4 ≠ mdmpSignature := by
  intro m
  unfold parseHeader
  split
  · simp_all
  · split
    · simp_all
    · split <;> simp_all

/-- C7: a printed module line carries the "No symbols" warning exactly when
a module with the same debug_file and debug_identifier is in
modules_without_symbols, carries the "Corrupt symbols" warning exactly when
it is not in that list but such a module is in
modules_with_corrupt_symbols, and a module in both lists gets only the
"No symbols" warning; ContainsModule tests exactly the existence of a list
member sharing debug_file and debug_identifier. -/
theorem printModule_symbol_warnings :
    ∀ (m : CodeModule) (without corrupt : List CodeModule),
      (moduleWarning m without corrupt = SymbolWarning.noSymbols ↔
        containsModule without m = true)
      ∧ (moduleWarning m without corrupt = SymbolWarning.corruptSymbols ↔
        containsModule without m = false ∧ containsModule corrupt m = true)
      ∧ (containsModule without m = true → containsModule corrupt m = true →
        moduleWarning m without corrupt = SymbolWarning.noSymbols)
      ∧ (∀ l : List CodeModule, containsModule l m = true ↔
        ∃ x ∈ l, m.debug_file = x.debug_file ∧ m.debug_identifier = x.debug_identifier) := by
  intro m without corrupt
  refine ⟨?_, ?_, ?_, ?_⟩
  · by_cases h1 : containsModule without m <;>
      by_cases h2 : containsModule corrupt m <;>
      simp [moduleWarning, h1, h2]
  · by_cases h1 : containsModule without m <;>
      by_cases h2 : containsModule corrupt m <;>
      simp [moduleWarning, h1, h2]
  · intro h1 h2
    simp [moduleWarning, h1]
  · intro l
    simp [containsModule, List.any_eq_true, Bool.and_eq_true, decide_eq_true_iff]

/-- C10: in the human-readable stack trace, a register's name and value are
printed only when that register's validity mask intersects the frame's
context_validity, and a frame with the inline-expansion trust prints no
register values at all. -/
theorem printedRegisters_guarded_by_validity :
    ∀ (cpu : String) (trust : FrameTrust) (validity : Nat) (r : String),
      (r ∈ printedRegisters cpu trust validity →
        ∃ mask, (r, mask) ∈ regTable cpu ∧ Nat.land validity mask ≠ 0)
      ∧ (trust = FrameTrust.inlined → printedRegisters cpu trust validity = []) := by
  intro cpu trust validity r
  constructor
  · intro hr
    unfold printedRegisters at hr
    split at hr
    · simp at hr
    · obtain ⟨p, hp, hpr⟩ := List.mem_map.mp hr
      obtain ⟨hmem, hmask⟩ := List.mem_filter.mp hp
      refine ⟨p.2, ?_, ?_⟩
      · simpa [← hpr] using hmem
      · simpa using hmask
  · intro h
    simp [printedRegisters, h]

/-- C5: each architecture-specific context accessor of DumpContext returns
NULL whenever the CPU tag (context_flags masked with the CPU mask, which is
0 for an invalid context) does not name its architecture, and otherwise
returns the stored union member; the tagged variant is never read as the
wrong architecture. -/
theorem getContext_accessors_respect_tag :
    ∀ d : DumpContext,
      (d.valid_ = false → GetContextCPU d = 0)
      ∧ (GetContextCPU d ≠ MD_CONTEXT_X86 → GetContextX86 d = none)
      ∧ (GetContextCPU d = MD_CONTEXT_X86 → GetContextX86 d = d.context_.asX86)
      ∧ (GetContextCPU d ≠ MD_CONTEXT_PPC → GetContextPPC d = none)
      ∧ (GetContextCPU d = MD_CONTEXT_PPC → GetContextPPC d = d.context_.asPPC)
      ∧ (GetContextCPU d ≠ MD_CONTEXT_PPC64 → GetContextPPC64 d = none)
      ∧ (GetContextCPU d = MD_CONTEXT_PPC64 → GetContextPPC64 d = d.context_.asPPC64)
      ∧ (GetContextCPU d ≠ MD_CONTEXT_AMD64 → GetContextAMD64 d = none)
      ∧ (GetContextCPU d = MD_CONTEXT_AMD64 → GetContextAMD64 d = d.context_.asAMD64)
      ∧ (GetContextCPU d ≠ MD_CONTEXT_SPARC → GetContextSPARC d = none)
      ∧ (GetContextCPU d = MD_CONTEXT_SPARC → GetContextSPARC d = d.context_.asSPARC)
      ∧ (GetContextCPU d ≠ MD_CONTEXT_ARM → GetContextARM d = none)
      ∧ (GetContextCPU d = MD_CONTEXT_ARM → GetContextARM d = d.context_.asARM)
      ∧ (GetContextCPU d ≠ MD_CONTEXT_ARM64 → GetContextARM64 d = none)
      ∧ (GetContextCPU d = MD_CONTEXT_ARM64 → GetContextARM64 d = d.context_.asARM64)
      ∧ (GetContextCPU d ≠ MD_CONTEXT_MIPS → GetContextCPU d ≠ MD_CONTEXT_MIPS64 →
        GetContextMIPS d = none)
      ∧ (GetContextCPU d = MD_CONTEXT_MIPS ∨ GetContextCPU d = MD_CONTEXT_MIPS64 →
        GetContextMIPS d = d.context_.asMIPS) := by
  intro d
  refine ⟨fun h => by simp [GetContextCPU, h],
    fun h => by simp [GetContextX86, h], fun h => by simp [GetContextX86, h],
    fun h => by simp [GetContextPPC, h], fun h => by simp [GetContextPPC, h],
    fun h => by simp [GetContextPPC64, h], fun h => by simp [GetContextPPC64, h],
    fun h => by simp [GetContextAMD64, h], fun h => by simp [GetContextAMD64, h],
    fun h => by simp [GetContextSPARC, h], fun h => by simp [GetContextSPARC, h],
    fun h => by simp [GetContextARM, h], fun h => by simp [GetContextARM, h],
    fun h => by simp [GetContextARM64, h], fun h => by simp [GetContextARM64, h],
    fun h h2 => by simp [GetContextMIPS, h, h2],
    fun h => ?_⟩
  rcases h with h | h <;>
    simp [GetContextMIPS, h, MD_CONTEXT_MIPS, MD_CONTEXT_MIPS64]

/-- C4 amended: for a valid DumpContext storing the union member matching
its CPU tag, GetInstructionPointer and GetStackPointer succeed and yield
the architecture's program counter and stack pointer — EIP/ESP for x86,
RIP/RSP for amd64, the PC entry of iregs and R13 for arm, the PC entry of
iregs and X31 for arm64, srr0 and R1 for ppc and ppc64, pc and O6 for
sparc, epc and R29 for mips and mips64 — and both return false for every
other tag, riscv and riscv64 included, which dump_context.cc does not
handle. -/
theorem getIP_getSP_by_architecture :
    ∀ d : DumpContext, d.valid_ = true →
      (∀ c, d.context_ = RawContext.x86 c → GetContextCPU d = MD_CONTEXT_X86 →
        GetInstructionPointer d = some c.eip ∧ GetStackPointer d = some c.esp)
      ∧ (∀ c, d.context_ = RawContext.amd64 c → GetContextCPU d = MD_CONTEXT_AMD64 →
        GetInstructionPointer d = some c.rip ∧ GetStackPointer d = some c.rsp)
      ∧ (∀ c, d.context_ = RawContext.arm c → GetContextCPU d = MD_CONTEXT_ARM →
        GetInstructionPointer d = some (c.iregs MD_CONTEXT_ARM_REG_PC) ∧
        GetStackPointer d = some (c.iregs MD_CONTEXT_ARM_REG_SP))
      ∧ (∀ c, d.context_ = RawContext.arm64 c → GetContextCPU d = MD_CONTEXT_ARM64 →
        GetInstructionPointer d = some (c.iregs MD_CONTEXT_ARM64_REG_PC) ∧
        GetStackPointer d = some (c.iregs MD_CONTEXT_ARM64_REG_SP))
      ∧ (∀ c, d.context_ = RawContext.ppc c → GetContextCPU d = MD_CONTEXT_PPC →
        GetInstructionPointer d = some c.srr0 ∧
        GetStackPointer d = some (c.gpr MD_CONTEXT_PPC_REG_SP))
      ∧ (∀ c, d.context_ = RawContext.ppc64 c → GetContextCPU d = MD_CONTEXT_PPC64 →
        GetInstructionPointer d = some c.srr0 ∧
        GetStackPointer d = some (c.gpr MD_CONTEXT_PPC64_REG_SP))
      ∧ (∀ c, d.context_ = RawContext.sparc c → GetContextCPU d = MD_CONTEXT_SPARC →
        GetInstructionPointer d = some c.pc ∧
        GetStackPointer d = some (c.g_r MD_CONTEXT_SPARC_REG_SP))
      ∧ (∀ c, d.context_ = RawContext.mips c →
        GetContextCPU d = MD_CONTEXT_MIPS ∨ GetContextCPU d = MD_CONTEXT_MIPS64 →
        GetInstructionPointer d = some c.epc ∧
        GetStackPointer d = some (c.iregs MD_CONTEXT_MIPS_REG_SP))
      ∧ (GetContextCPU d ∉ [MD_CONTEXT_X86, MD_CONTEXT_AMD64, MD_CONTEXT_ARM,
          MD_CONTEXT_ARM64, MD_CONTEXT_PPC, MD_CONTEXT_PPC64, MD_CONTEXT_SPARC,
          MD_CONTEXT_MIPS, MD_CONTEXT_MIPS64] →
        GetInstructionPointer d = none ∧ GetStackPointer d = none) := by
  intro d hv
  refine ⟨fun c hc ht => ?_, fun c hc ht => ?_, fun c hc ht => ?_, fun c hc ht => ?_,
    fun c hc ht => ?_, fun c hc ht => ?_, fun c hc ht => ?_, fun c hc ht => ?_,
    fun h => ?_⟩
  · constructor <;>
      simp [GetInstructionPointer, GetStackPointer, hv, ht, GetContextX86, hc,
        RawContext.asX86, MD_CONTEXT_X86, MD_CONTEXT_AMD64, MD_CONTEXT_ARM,
        MD_CONTEXT_ARM64, MD_CONTEXT_PPC, MD_CONTEXT_PPC64, MD_CONTEXT_SPARC]
  · constructor <;>
      simp [GetInstructionPointer, GetStackPointer, hv, ht, GetContextAMD64, hc,
        RawContext.asAMD64]
  · constructor <;>
      simp [GetInstructionPointer, GetStackPointer, hv, ht, GetContextARM, hc,
        RawContext.asARM, MD_CONTEXT_ARM, MD_CONTEXT_AMD64]
  · constructor <;>
      simp [GetInstructionPointer, GetStackPointer, hv, ht, GetContextARM64, hc,
        RawContext.asARM64, MD_CONTEXT_ARM64, MD_CONTEXT_AMD64, MD_CONTEXT_ARM]
  · constructor <;>
      simp [GetInstructionPointer, GetStackPointer, hv, ht, GetContextPPC, hc,
        RawContext.asPPC, MD_CONTEXT_PPC, MD_CONTEXT_AMD64, MD_CONTEXT_ARM,
        MD_CONTEXT_ARM64]
  · constructor <;>
      simp [GetInstructionPointer, GetStackPointer, hv, ht, GetContextPPC64, hc,
        RawContext.asPPC64, MD_CONTEXT_PPC64, MD_CONTEXT_AMD64, MD_CONTEXT_ARM,
        MD_CONTEXT_ARM64, MD_CONTEXT_PPC]
  · constructor <;>
      simp [GetInstructionPointer, GetStackPointer, hv, ht, GetContextSPARC, hc,
        RawContext.asSPARC, MD_CONTEXT_SPARC, MD_CONTEXT_AMD64, MD_CONTEXT_ARM,
        MD_CONTEXT_ARM64, MD_CONTEXT_PPC, MD_CONTEXT_PPC64]
  · rcases ht with ht | ht <;>
      constructor <;>
      simp [GetInstructionPointer, GetStackPointer, hv, ht, GetContextMIPS, hc,
        RawContext.asMIPS, MD_CONTEXT_MIPS, MD_CONTEXT_MIPS64, MD_CONTEXT_AMD64,
        MD_CONTEXT_ARM, MD_CONTEXT_ARM64, MD_CONTEXT_PPC, MD_CONTEXT_PPC64,
        MD_CONTEXT_SPARC, MD_CONTEXT_X86]
  · simp only [List.mem_cons, List.not_mem_nil, or_false, not_or] at h
    obtain ⟨h1, h2, h3, h4, h5, h6, h7, h8, h9⟩ := h
    constructor <;>
      simp [GetInstructionPointer, GetStackPointer, hv, h1, h2, h3, h4, h5, h6,
        h7, h8, h9]

/-- A concrete valid x86 DumpContext: tag x86, low flag byte set as in a
full x86 context record. -/
def dX86example : DumpContext :=
  { valid_ := true, context_flags_ := MD_CONTEXT_X86 + 7,
    context_ := RawContext.x86 { eip := 111, esp := 222 } }

/-- Witness for the amended C4 theorem at a concrete valid x86 context. -/
theorem getIP_getSP_by_architecture_witness :
    GetInstructionPointer dX86example = some 111 ∧
    GetStackPointer dX86example = some 222 :=
  (getIP_getSP_by_architecture dX86example rfl).1 _ rfl (by decide)

/-- A valid DumpContext whose CPU tag is riscv; dump_context.cc stores no
riscv union member, so the union is in its base state. -/
def dRiscvTagged : DumpContext :=
  { valid_ := true, context_flags_ := MD_CONTEXT_RISCV,
    context_ := RawContext.base }

/-- C4 counterexample: on a valid DumpContext whose CPU tag is riscv — an
architecture the claim lists as supported, with PC and SP = X2 expected —
GetInstructionPointer and GetStackPointer both return false (none): the
switches of dump_context.cc have no riscv case. -/
theorem getIP_riscv_tag_returns_false :
    GetContextCPU dRiscvTagged = MD_CONTEXT_RISCV
    ∧ GetInstructionPointer dRiscvTagged = none
    ∧ GetStackPointer dRiscvTagged = none := by
  refine ⟨by decide, ?_, ?_⟩ <;> decide

theorem count_intRange (n i : Nat) (hi : i < n) :
    ((List.range n).map Int.ofNat).count (i : Int) = 1 := by
  have hinj : Function.Injective Int.ofNat := fun a b h => Int.ofNat.inj h
  have hmap : ((List.range n).map Int.ofNat).count (Int.ofNat i) =
      (List.range n).count i := List.count_map_of_injective _ _ hinj _
  rw [show ((i : Nat) : Int) = Int.ofNat i from rfl, hmap]
  exact List.count_eq_one_of_mem (List.nodup_range n) (List.mem_range.mpr hi)

/-- C8 amended: the machine-readable report printer always, and the
human-readable one unless asked to print only the requesting thread, print
the requesting thread's call stack first whenever requesting_thread is not
-1 and print every thread's call stack exactly once, the loop over all
threads skipping the requesting index; when requesting_thread is -1 the
threads are printed in index order with none singled out. When the
human-readable printer is asked for the requesting thread only
(output_requesting_thread_only), the other threads are not printed. -/
theorem printedThreads_order_and_coverage :
    ∀ (req : Int) (n : Nat),
      ((req = -1 ∨ 0 ≤ req ∧ req < (n : Int)) →
        ∀ i : Nat, i < n →
          (printedThreadsMachine req n).count (i : Int) = 1
          ∧ (printedThreadsHuman req n false).count (i : Int) = 1)
      ∧ printedThreadsHuman req n false = printedThreadsMachine req n
      ∧ (req ≠ -1 → (printedThreadsMachine req n).head? = some req)
      ∧ (req = -1 → printedThreadsMachine req n = (List.range n).map Int.ofNat) := by
  intro req n
  have hagree : printedThreadsHuman req n false = printedThreadsMachine req n := by
    simp [printedThreadsHuman, printedThreadsMachine]
  have hcount : (req = -1 ∨ 0 ≤ req ∧ req < (n : Int)) →
      ∀ i : Nat, i < n → (printedThreadsMachine req n).count (i : Int) = 1 := by
    intro hreq i hi
    unfold printedThreadsMachine
    rw [List.count_append]
    rcases hreq with hreq | ⟨hreq0, hreqn⟩
    · have hfilter : ((List.range n).map Int.ofNat).filter
          (fun j => decide (j ≠ req)) = (List.range n).map Int.ofNat := by
        rw [List.filter_eq_self]
        intro a ha
        obtain ⟨k, _, rfl⟩ := List.mem_map.mp ha
        simp [hreq]
      rw [if_neg (fun h => h hreq), hfilter, count_intRange n i hi]
      rfl
    · have hne : ¬req = -1 := by omega
      rw [if_pos hne]
      by_cases hiq : (i : Int) = req
      · have hzero : List.count (i : Int) (((List.range n).map Int.ofNat).filter
            fun j => decide (j ≠ req)) = 0 := by
          rw [List.count_eq_zero]
          intro hmem
          exact absurd hiq (by simpa using (List.mem_filter.mp hmem).2)
        rw [hzero, List.count_singleton', if_pos hiq.symm]
      · have hone : List.count (i : Int) (((List.range n).map Int.ofNat).filter
            fun j => decide (j ≠ req)) = 1 := by
          rw [List.count_filter (by simpa using hiq)]
          exact count_intRange n i hi
        rw [hone, List.count_singleton', if_neg (fun h => hiq h.symm)]
  refine ⟨fun hreq i hi => ⟨(hcount hreq i hi), ?_⟩, hagree, fun hne => ?_, fun hm1 => ?_⟩
  · rw [hagree]
    exact hcount hreq i hi
  · simp [printedThreadsMachine, hne]
  · unfold printedThreadsMachine
    rw [List.filter_eq_self.mpr]
    · simp [hm1]
    · intro a ha
      obtain ⟨k, _, rfl⟩ := List.mem_map.mp ha
      simp [hm1]

/-- C8 counterexample: with two threads, requesting thread 0 and the
human-readable printer asked for the requesting thread only, thread 1's
call stack is not printed at all, so not every thread is printed exactly
once as the claim states. -/
theorem printedThreadsHuman_only_flag_skips_thread :
    (printedThreadsHuman 0 2 true).count 1 ≠ 1 := by decide

theorem acceptCaller_some_spec (stackEnd calleeSp : Nat) (t : FrameTrust)
    (r : Option RiscvContext) (f : RiscvFrame)
    (h : acceptCaller stackEnd calleeSp t r = Option.some f) :
    f.trust = t ∧ calleeSp < f.context.sp := by
  cases r with
  | none => exact absurd h (by simp [acceptCaller])
  | some c =>
    have h2 : (if plausibleCaller stackEnd calleeSp c = true then
        Option.some ({ context := c, trust := t, context_validity := riscvCallerValidity } : RiscvFrame)
      else Option.none) = Option.some f := h
    by_cases hp : plausibleCaller stackEnd calleeSp c = true
    · rw [if_pos hp] at h2
      obtain rfl := Option.some.inj h2
      have hp2 : calleeSp < c.sp := by
        simp [plausibleCaller] at hp
        exact hp.1.2
      exact ⟨rfl, hp2⟩
    · rw [if_neg hp] at h2
      cases h2

theorem acceptCaller_eq_none (stackEnd calleeSp : Nat) (t : FrameTrust)
    (r : Option RiscvContext)
    (h : ∀ c, r = Option.some c → plausibleCaller stackEnd calleeSp c = false) :
    acceptCaller stackEnd calleeSp t r = Option.none := by
  cases r with
  | none => rfl
  | some c => simp [acceptCaller, h c rfl]

theorem getCallerFrame_some_spec (stackEnd : Nat) (strategies : CallerStrategies)
    (allowed : Bool) (callee f : RiscvFrame)
    (h : getCallerFrame stackEnd strategies allowed callee = Option.some f) :
    (f.trust = FrameTrust.cfi ∨ f.trust = FrameTrust.fp ∨ f.trust = FrameTrust.scan)
    ∧ callee.context.sp < f.context.sp := by
  unfold getCallerFrame at h
  cases hc : acceptCaller stackEnd callee.context.sp FrameTrust.cfi
      (strategies.byCFI callee) with
  | some fc =>
    rw [hc] at h
    obtain rfl : fc = f := Option.some.inj h
    obtain ⟨ht, hsp⟩ := acceptCaller_some_spec _ _ _ _ _ hc
    exact ⟨Or.inl ht, hsp⟩
  | none =>
    rw [hc] at h
    cases hf : acceptCaller stackEnd callee.context.sp FrameTrust.fp
        (strategies.byFramePointer callee) with
    | some ff =>
      rw [hf] at h
      obtain rfl : ff = f := Option.some.inj h
      obtain ⟨ht, hsp⟩ := acceptCaller_some_spec _ _ _ _ _ hf
      exact ⟨Or.inr (Or.inl ht), hsp⟩
    | none =>
      rw [hf] at h
      cases allowed with
      | false => simp at h
      | true =>
        simp only [if_pos] at h
        obtain ⟨ht, hsp⟩ := acceptCaller_some_spec _ _ _ _ _ h
        exact ⟨Or.inr (Or.inr ht), hsp⟩

/-- C1: caller recovery (StackwalkerRISCV::GetCallerFrame and its riscv64
twin, modelled from the spec) attempts the strategies in the fixed order
CFI unwind, then frame-pointer walk, then stack scan; the stack scan is
attempted only when the caller permits it and the previous strategies
yielded no plausible frame; and the first strategy yielding a plausible
frame determines the returned frame. -/
theorem getCallerFrame_strategy_order :
    ∀ (stackEnd : Nat) (strategies : CallerStrategies) (allowed : Bool)
      (callee : RiscvFrame),
      (∀ c, strategies.byCFI callee = some c →
        plausibleCaller stackEnd callee.context.sp c = true →
        getCallerFrame stackEnd strategies allowed callee =
          some { context := c, trust := FrameTrust.cfi,
                 context_validity := riscvCallerValidity })
      ∧ ((∀ c, strategies.byCFI callee = some c →
            plausibleCaller stackEnd callee.context.sp c = false) →
        ∀ c, strategies.byFramePointer callee = some c →
          plausibleCaller stackEnd callee.context.sp c = true →
          getCallerFrame stackEnd strategies allowed callee =
            some { context := c, trust := FrameTrust.fp,
                   context_validity := riscvCallerValidity })
      ∧ ((∀ c, strategies.byCFI callee = some c →
            plausibleCaller stackEnd callee.context.sp c = false) →
         (∀ c, strategies.byFramePointer callee = some c →
            plausibleCaller stackEnd callee.context.sp c = false) →
          getCallerFrame stackEnd strategies allowed callee =
            if allowed then
              acceptCaller stackEnd callee.context.sp FrameTrust.scan
                (strategies.byStackScan callee)
            else none) := by
  intro stackEnd strategies allowed callee
  refine ⟨fun c hc hp => ?_, fun hcfail c hc hp => ?_, fun hcfail hffail => ?_⟩
  · unfold getCallerFrame
    rw [hc]
    simp [acceptCaller, hp]
  · unfold getCallerFrame
    rw [acceptCaller_eq_none _ _ FrameTrust.cfi _ hcfail, hc]
    simp [acceptCaller, hp]
  · unfold getCallerFrame
    rw [acceptCaller_eq_none _ _ FrameTrust.cfi _ hcfail,
      acceptCaller_eq_none _ _ FrameTrust.fp _ hffail]

theorem walkCallers_trusts (stackEnd : Nat) (strategies : CallerStrategies)
    (allowed : Bool) :
    ∀ (budget : Nat) (last f : RiscvFrame),
      f ∈ walkCallers stackEnd strategies allowed budget last →
      f.trust = FrameTrust.cfi ∨ f.trust = FrameTrust.fp ∨
        f.trust = FrameTrust.scan := by
  intro budget
  induction budget with
  | zero =>
    intro last f hf
    simp [walkCallers] at hf
  | succ b ih =>
    intro last f hf
    unfold walkCallers at hf
    cases hg : getCallerFrame stackEnd strategies allowed last with
    | none =>
      rw [hg] at hf
      simp at hf
    | some g =>
      rw [hg] at hf
      rcases List.mem_cons.mp hf with rfl | hf2
      · exact (getCallerFrame_some_spec _ _ _ _ _ hg).1
      · exact ih g f hf2

/-- C2: in every walked call stack (modelled from the spec for the RISC-V
walkers) the frame at index 0 is built directly from the initial CPU
context — its registers are the context's, all valid registers are marked
copied — with trust level Context, and no frame at any later index ever has
trust level Context. -/
theorem walkStack_context_trust_exactly_frame0 :
    ∀ (stackEnd : Nat) (strategies : CallerStrategies) (allowed : Bool)
      (budget : Nat) (ctx : RiscvContext),
      (walkStack stackEnd strategies allowed budget ctx).head? =
        some (getContextFrame ctx)
      ∧ (getContextFrame ctx).trust = FrameTrust.context
      ∧ (getContextFrame ctx).context = ctx
      ∧ (getContextFrame ctx).context_validity = riscvContextValidAll
      ∧ ∀ (i : Nat) (f : RiscvFrame),
          (walkStack stackEnd strategies allowed budget ctx)[i + 1]? = some f →
          f.trust ≠ FrameTrust.context := by
  intro stackEnd strategies allowed budget ctx
  refine ⟨rfl, rfl, rfl, rfl, fun i f hf => ?_⟩
  have hmem : f ∈ walkCallers stackEnd strategies allowed budget
      (getContextFrame ctx) := by
    rw [walkStack, List.getElem?_cons_succ] at hf
    exact List.getElem?_mem hf
  rcases walkCallers_trusts stackEnd strategies allowed budget _ f hmem with
    h | h | h <;> simp [h]

theorem walkCallers_chain (stackEnd : Nat) (strategies : CallerStrategies)
    (allowed : Bool) :
    ∀ (budget : Nat) (last : RiscvFrame),
      List.Chain' (fun a b => a.context.sp < b.context.sp)
        (last :: walkCallers stackEnd strategies allowed budget last) := by
  intro budget
  induction budget with
  | zero =>
    intro last
    simp [walkCallers]
  | succ b ih =>
    intro last
    unfold walkCallers
    cases hg : getCallerFrame stackEnd strategies allowed last with
    | none => simp
    | some g =>
      rw [List.chain'_cons]
      exact ⟨(getCallerFrame_some_spec _ _ _ _ _ hg).2, ih g⟩

/-- C3: in every walked call stack (modelled from the spec for the RISC-V
walkers, whose stack grows downward) each caller frame's stack pointer is
strictly greater than its callee frame's stack pointer: consecutive frames
have strictly increasing sp. -/
theorem walkStack_sp_strictly_increases :
    ∀ (stackEnd : Nat) (strategies : CallerStrategies) (allowed : Bool)
      (budget : Nat) (ctx : RiscvContext),
      List.Chain' (fun callee caller => callee.context.sp < caller.context.sp)
        (walkStack stackEnd strategies allowed budget ctx) :=
  fun stackEnd strategies allowed budget ctx =>
    walkCallers_chain stackEnd strategies allowed budget (getContextFrame ctx)

end Breakpad
